import Mathlib

/-!
Shallow embedding of `src/dashboard.py` (CCI Index Analytics Dashboard).

The dashboard's core is a handful of numeric transforms over an in-memory
monthly series:

* `generate_sample_data` builds a 120-point monthly series
  (`50 + 25·sin(…) + noise`) together with 4-month and 12-month trailing
  rolling-mean columns (pandas `rolling(window=w).mean()`).
* `period_months` / `filtered_data` map a period label to a month count via a
  Python dict and take the trailing slice with `DataFrame.tail`.
* `generate_projection` anchors at the last actual point and produces
  `months` future points `last + 10·sin(2πt) + 5t` with an uncertainty band
  `±10t`, `t = linspace(0, 1, months)`.
* the metric block computes `daily_change` and `daily_pct` from the last two
  points of the filtered series.

Modelling conventions:

* Values are `ℚ` (exact rationals) instead of IEEE `float64`.  The single
  place where the zero-set of floating point matters — division by a zero
  denominator, which numpy turns into `inf`/`-inf`/`nan` rather than raising —
  is modelled explicitly by the `FloatV` type and `floatDiv`.
* `np.sin` is irrational-valued, so the sinusoid is a parameter
  (`s : ℕ → ℚ` for the sample data's per-index seasonal term, and
  `sin2pi : ℚ → ℚ`, standing for `t ↦ sin(2πt)`, for the projection);
  theorems hold for every choice of these functions, with `sin2pi 0 = 0`
  assumed where the real `sin` fact `sin 0 = 0` is used.  The random noise of
  the generator is likewise an arbitrary parameter `noise : ℕ → ℚ`.
* Timestamps are abstract month indices (`ℕ`); `pd.date_range(end, 120, 'M')`
  becomes `List.range 120` and the projection's future dates become
  `lastDate + 1, …, lastDate + months`.
* Python exceptions escaping an operation (a dict `KeyError`, an out-of-range
  `iloc` `IndexError`) are modelled as `Except.error` carrying `PyExc`; an
  operation that returns normally is `Except.ok`.  The Python code defines no
  typed error values of its own.
* pandas columns of a frame all have the same row count; `DataFrame.tail`
  uses the CCI column's length as the frame's row count, exactly as
  `len(data)` does in the script.
-/

/-- A Python exception escaping an operation's boundary, uncaught:
`KeyError` from a dict lookup, `IndexError` from `iloc`. -/
inductive PyExc where
  | keyError (key : String)
  | indexError
  deriving DecidableEq, Repr

/-- Outcome of a numpy `float64` arithmetic expression: either an ordinary
finite value (exact, as `ℚ`) or one of the non-finite IEEE results that numpy
produces instead of raising on a zero denominator. -/
inductive FloatV where
  | val (q : ℚ)
  | inf
  | negInf
  | nan
  deriving DecidableEq, Repr

/-- numpy division `a / b` on `float64`: for `b ≠ 0` the exact quotient, for
`b = 0` the IEEE results `nan` (0/0), `inf` (pos/0) or `-inf` (neg/0);
no exception is raised. -/
def floatDiv (a b : ℚ) : FloatV :=
  if b = 0 then
    if a = 0 then .nan else if 0 < a then .inf else .negInf
  else .val (a / b)

/-- Multiplication of a `FloatV` by the positive literal `100`
(as in `… / prev * 100`): scales a finite value, fixes `±inf` and `nan`. -/
def floatMul100 : FloatV → FloatV
  | .val q => .val (q * 100)
  | .inf => .inf
  | .negInf => .negInf
  | .nan => .nan

/-- The pandas frame built by `generate_sample_data`: a `Date` column, the
`CCI Index` column, and the two derived moving-average columns
(`NaN` cells of the rolling mean are `none`). -/
structure DataFrame where
  dates : List ℕ
  cci : List ℚ
  ma4 : List (Option ℚ)
  ma12 : List (Option ℚ)
  deriving DecidableEq, Repr

/-- The frame returned by `generate_projection`: future dates, projected
values, and the upper/lower edges of the uncertainty cone. -/
structure ProjFrame where
  dates : List ℕ
  projected : List ℚ
  upper : List ℚ
  lower : List ℚ
  deriving DecidableEq, Repr

/-- pandas `series.rolling(window=w).mean()`: at index `i` the trailing simple
mean of `xs[i-w+1 .. i]` once `w` points are available (`i + 1 ≥ w`), and
`NaN` (here `none`) before that.  Output has the same length as the input. -/
def rollingMean (xs : List ℚ) (w : ℕ) : List (Option ℚ) :=
  (List.range xs.length).map fun i =>
    if w ≤ i + 1 then some (((xs.drop (i + 1 - w)).take w).sum / (w : ℚ))
    else none

/-- `generate_sample_data()`: 120 monthly dates ending at the current date
(abstracted to month indices `0,…,119`), values
`50 + 25·sin(t·2π/12) + noise` with `t = linspace(0,10,120)` — the sinusoid
samples are the parameter `s` and the `np.random.normal` draws the parameter
`noise` — plus the 4-month and 12-month rolling-mean columns computed over
the full 120-point series.  `sampleCCI` is the script's local `cci_values`
array (`base_trend + noise`). -/
def sampleCCI (s noise : ℕ → ℚ) : List ℚ :=
  (List.range 120).map fun i => 50 + 25 * s i + noise i

/-- The frame assembled by `generate_sample_data`: the `Date` and `CCI Index`
columns plus the two rolling-mean columns, all derived from the same
120-point `cci_values` array. -/
def generate_sample_data (s noise : ℕ → ℚ) : DataFrame :=
  { dates := List.range 120
    cci := sampleCCI s noise
    ma4 := rollingMean (sampleCCI s noise) 4
    ma12 := rollingMean (sampleCCI s noise) 12 }

/-- The `period_months` dict literal: label ↦ trailing month count, with
`"Max"` bound to `len(data)` of the frame in scope. -/
def period_months (df : DataFrame) : List (String × ℕ) :=
  [("6 Months", 6), ("1 Year", 12), ("3 Years", 36), ("10 Years", 120),
   ("Max", df.cci.length)]

/-- pandas `DataFrame.tail(n)`: the last `min(n, len)` rows; each column drops
the first `len − n` entries, `len` being the frame's row count. -/
def DataFrame.tail (df : DataFrame) (n : ℕ) : DataFrame :=
  let k := df.cci.length - n
  { dates := df.dates.drop k
    cci := df.cci.drop k
    ma4 := df.ma4.drop k
    ma12 := df.ma12.drop k }

/-- `filtered_data = data.tail(period_months[time_period])`: the dict lookup
raises an uncaught `KeyError` for an unrecognized label, otherwise the
trailing slice is returned. -/
def filtered_dataE (df : DataFrame) (label : String) : Except PyExc DataFrame :=
  match (period_months df).lookup label with
  | none => .error (.keyError label)
  | some n => .ok (df.tail n)

/-- `np.linspace(0, 1, n)`: `n` evenly spaced samples from `0` to `1`
inclusive (`i/(n−1)`); numpy returns `[0]` for `n = 1` and `[]` for
`n = 0`. -/
def linspace01 (n : ℕ) : List ℚ :=
  if n ≤ 1 then List.replicate n 0
  else (List.range n).map fun i : ℕ => (i : ℚ) / ((n : ℚ) - 1)

/-- `generate_projection(data, months)`: reads the last actual value and date
(`iloc[-1]`, an uncaught `IndexError` on an empty column), then builds
`months` future monthly dates and, over `t = linspace(0,1,months)`, the rows
`Projected = last + 10·sin(2πt) + 5t`, `Upper = Projected + 10t`,
`Lower = Projected − 10t`.  `sin2pi` stands for `t ↦ sin(2πt)`. -/
def generate_projectionE (sin2pi : ℚ → ℚ) (df : DataFrame) (months : ℕ) :
    Except PyExc ProjFrame :=
  match df.cci.getLast?, df.dates.getLast? with
  | none, _ => .error .indexError
  | some _, none => .error .indexError
  | some lastValue, some lastDate =>
    let t := linspace01 months
    let proj : ℚ → ℚ := fun ti => lastValue + 10 * sin2pi ti + 5 * ti
    .ok { dates := (List.range months).map fun j => lastDate + 1 + j
          projected := t.map proj
          upper := t.map fun ti => proj ti + ti * 10
          lower := t.map fun ti => proj ti - ti * 10 }

/-- Python negative indexing `series.iloc[-k]` on a column of length `len`:
the element at offset `len − k` when `1 ≤ k ≤ len`, an uncaught `IndexError`
otherwise. -/
def ilocNeg (xs : List ℚ) (k : ℕ) : Except PyExc ℚ :=
  if 1 ≤ k ∧ k ≤ xs.length then .ok (xs.getD (xs.length - k) 0)
  else .error .indexError

/-- The `Monthly Change` metric block:
`daily_change = iloc[-1] − iloc[-2]`,
`daily_pct = daily_change / iloc[-2] * 100` under numpy `float64`
semantics (`FloatV`). -/
def daily_pctE (cci : List ℚ) : Except PyExc FloatV := do
  let lastValue ← ilocNeg cci 1
  let prev ← ilocNeg cci 2
  let change := lastValue - prev
  pure (floatMul100 (floatDiv change prev))

/-! ### Basic facts about the embedded definitions -/

theorem sampleCCI_length (s noise : ℕ → ℚ) : (sampleCCI s noise).length = 120 := by
  rw [sampleCCI, List.length_map, List.length_range]

theorem generate_sample_data_cci_length (s noise : ℕ → ℚ) :
    (generate_sample_data s noise).cci.length = 120 :=
  sampleCCI_length s noise

theorem rollingMean_length (xs : List ℚ) (w : ℕ) :
    (rollingMean xs w).length = xs.length := by
  simp [rollingMean]

/-! ### C8: filtering with "Max" is the identity -/

/-- **C8.** For every frame, filtering with the label `"Max"` is the identity:
`period_months` binds `"Max"` to the frame's own row count, and
`tail (len)` drops nothing, so the result has the same timestamps, values and
derived columns as the input. -/
theorem filter_max_identity (df : DataFrame) : filtered_dataE df "Max" = .ok df := by
  simp [filtered_dataE, period_months, List.lookup, DataFrame.tail]

/-! ### C9: on generated data, "10 Years" and "Max" coincide -/

/-- **C9.** The generated sample frame always has exactly 120 monthly rows,
so filtering with `"10 Years"` (120 months) and filtering with `"Max"`
produce identical filtered frames, for every sinusoid sample function `s`
and noise draw `noise`. -/
theorem filter_ten_years_eq_max (s noise : ℕ → ℚ) :
    filtered_dataE (generate_sample_data s noise) "10 Years" =
      filtered_dataE (generate_sample_data s noise) "Max" := by
  simp [filtered_dataE, period_months, List.lookup, DataFrame.tail,
    generate_sample_data, sampleCCI]

/-! ### C7: a window longer than the series returns the full series -/

/-- **C7.** For every frame and recognized period label whose trailing month
count `n` is at least the series length, `tail` drops `len − n = 0` rows:
the filter returns the full frame unchanged, with no padding and no error. -/
theorem filter_window_exceeds_length (df : DataFrame) (label : String) (n : ℕ)
    (hlook : (period_months df).lookup label = some n)
    (hlen : df.cci.length ≤ n) :
    filtered_dataE df label = .ok df := by
  simp [filtered_dataE, hlook, DataFrame.tail, Nat.sub_eq_zero_of_le hlen]

theorem filter_window_exceeds_length_witness :
    filtered_dataE ⟨[0], [5], [none], [none]⟩ "6 Months" =
      .ok ⟨[0], [5], [none], [none]⟩ :=
  filter_window_exceeds_length ⟨[0], [5], [none], [none]⟩ "6 Months" 6
    (by decide) (by decide)

/-! ### C2: an unrecognized period label raises an uncaught KeyError -/

/-- **C2 counterexample.** The claim says an unrecognized label yields a
typed `InvalidPeriod` failure result.  On the code, the dict subscript
`period_months[time_period]` raises an uncaught Python `KeyError` that
escapes the operation's boundary — the code defines no `InvalidPeriod`
(nor any other typed error) value.  Concretely, for the label `"2 Years"`
the operation's outcome is the uncaught exception. -/
theorem filter_unknown_label_cex :
    filtered_dataE ⟨[0, 1], [1, 2], [none, none], [none, none]⟩ "2 Years" =
      .error (.keyError "2 Years") := by
  simp [filtered_dataE, period_months, List.lookup]

/-- **C2 amended.** For every frame and every period label outside the five
recognized ones, `filtered_data` ends in an uncaught `KeyError` carrying the
label (an untyped Python exception), not a typed `InvalidPeriod` result. -/
theorem filter_unknown_label_keyError (df : DataFrame) (label : String)
    (h : label ∉ ["6 Months", "1 Year", "3 Years", "10 Years", "Max"]) :
    filtered_dataE df label = .error (.keyError label) := by
  simp only [List.mem_cons, List.not_mem_nil, or_false, not_or] at h
  obtain ⟨h1, h2, h3, h4, h5⟩ := h
  simp [filtered_dataE, period_months, List.lookup,
    beq_eq_false_iff_ne.mpr h1, beq_eq_false_iff_ne.mpr h2,
    beq_eq_false_iff_ne.mpr h3, beq_eq_false_iff_ne.mpr h4,
    beq_eq_false_iff_ne.mpr h5]

theorem filter_unknown_label_keyError_witness :
    filtered_dataE ⟨[0], [5], [none], [none]⟩ "7 Weeks" =
      .error (.keyError "7 Weeks") :=
  filter_unknown_label_keyError ⟨[0], [5], [none], [none]⟩ "7 Weeks" (by decide)

/-! ### C1: percent change when the previous value is zero -/

/-- **C1 counterexample.** The claim says that when the second-to-last value
of the filtered series is `0`, the percent-change metric reports a typed
`Undefined` value.  On the code, `daily_pct = daily_change / prev * 100` is a
bare numpy `float64` division with no zero check, and no `Undefined` (or any
other typed metric error) exists: for the concrete filtered values `[0, 5]`
the metric computation produces IEEE `Infinity`. -/
theorem daily_pct_zero_prev_cex : daily_pctE [0, 5] = .ok .inf := by
  norm_num [daily_pctE, ilocNeg, floatDiv, floatMul100, bind, Except.bind,
    pure, Except.pure]

/-- **C1 amended.** For every filtered series of at least two points whose
second-to-last value is `0`, the percent-change computation does not report a
typed `Undefined` value: it performs the division anyway and produces IEEE
`Infinity` when the last value is positive, `-Infinity` when negative, and
`NaN` when the change is also zero (numpy emits these rather than raising). -/
theorem daily_pct_zero_prev (cci : List ℚ) (lv : ℚ)
    (hlen : 2 ≤ cci.length)
    (hlast : cci.getD (cci.length - 1) 0 = lv)
    (hprev : cci.getD (cci.length - 2) 0 = 0) :
    daily_pctE cci =
      .ok (if lv = 0 then .nan else if 0 < lv then .inf else .negInf) := by
  have h1 : (1:ℕ) ≤ cci.length := by omega
  simp only [daily_pctE, ilocNeg, bind, Except.bind, pure, Except.pure,
    if_pos (And.intro (le_refl 1) h1), if_pos (And.intro (by omega : 1 ≤ 2) hlen),
    hlast, hprev, sub_zero, floatDiv, if_pos rfl]
  rcases lt_trichotomy lv 0 with h | h | h
  · simp [floatMul100, h.ne, not_lt.mpr h.le, h.not_lt]
  · simp [floatMul100, h]
  · simp [floatMul100, h, h.ne.symm]

theorem daily_pct_zero_prev_witness : daily_pctE [0, -3] = .ok .negInf := by
  have h := daily_pct_zero_prev [0, -3] (-3) (by decide)
    (by norm_num) (by norm_num)
  norm_num at h
  exact h

/-! ### C4: projection on a short series -/

/-- **C4 counterexample.** The claim says `project` on a series of length 1
fails with a typed `EmptySeries` error.  On the code, `iloc[-1]` succeeds on
a one-row frame and `generate_projection` returns a normal projection frame:
concretely, on the one-point series `[42]` it succeeds. -/
theorem projection_length_one_cex :
    (generate_projectionE (fun _ => 0) ⟨[7], [42], [none], [none]⟩ 12).toOption.isSome
      = true := rfl

/-- **C4 amended.** `generate_projection` succeeds on every series with at
least one point (length 1 included); it fails exactly when the series has
fewer than 1 point (is empty), and then with an uncaught Python `IndexError`
from `iloc[-1]`, not with a typed `EmptySeries` value (none exists in the
code).  `hlen` records that the `Date` and `CCI Index` columns of a pandas
frame have the same row count. -/
theorem generate_projection_error_iff_empty (sin2pi : ℚ → ℚ) (df : DataFrame)
    (m : ℕ) (hlen : df.dates.length = df.cci.length) :
    generate_projectionE sin2pi df m = .error .indexError ↔ df.cci = [] := by
  rcases hc : df.cci.getLast? with _ | lv
  · simp [generate_projectionE, hc, List.getLast?_eq_none_iff.mp hc]
  · have hne : df.cci ≠ [] := by
      intro e
      rw [e] at hc
      simp at hc
    have hdne : df.dates ≠ [] := by
      intro e
      rw [e] at hlen
      exact hne (List.length_eq_zero.mp hlen.symm)
    rcases hd : df.dates.getLast? with _ | ld
    · exact absurd (List.getLast?_eq_none_iff.mp hd) hdne
    · simp [generate_projectionE, hc, hd, hne]

theorem generate_projection_error_iff_empty_witness :
    generate_projectionE (fun _ => 0) ⟨[], [], [], []⟩ 12 = .error .indexError :=
  (generate_projection_error_iff_empty (fun _ => 0) ⟨[], [], [], []⟩ 12 rfl).mpr rfl

/-! ### The `linspace01` grid -/

/-- The value of `np.linspace(0, 1, n)` at index `i`: `0` for the degenerate
sizes `n ≤ 1`, `i/(n−1)` otherwise. -/
def tval (n i : ℕ) : ℚ :=
  if n ≤ 1 then 0 else (i : ℚ) / ((n : ℚ) - 1)

theorem linspace01_length (n : ℕ) : (linspace01 n).length = n := by
  unfold linspace01
  split
  · rw [List.length_replicate]
  · rw [List.length_map, List.length_range]

theorem linspace01_getElem? (n i : ℕ) (h : i < n) :
    (linspace01 n)[i]? = some (tval n i) := by
  unfold linspace01 tval
  split
  · rw [List.getElem?_replicate, if_pos h]
  · rw [List.getElem?_map, List.getElem?_range h, Option.map_some']

theorem tval_nonneg (n i : ℕ) : 0 ≤ tval n i := by
  unfold tval
  split
  · exact le_refl 0
  · have h2 : (2:ℚ) ≤ (n:ℚ) := by exact_mod_cast (by omega : 2 ≤ n)
    have h3 : (0:ℚ) < (n:ℚ) - 1 := by linarith
    positivity

theorem tval_mono (n i j : ℕ) (hij : i ≤ j) : tval n i ≤ tval n j := by
  unfold tval
  split
  · exact le_refl 0
  · next hn =>
    have h2 : (2:ℚ) ≤ (n:ℚ) := by exact_mod_cast (by omega : 2 ≤ n)
    have h3 : (0:ℚ) < (n:ℚ) - 1 := by linarith
    exact (div_le_div_iff_of_pos_right h3).mpr (by exact_mod_cast hij)

theorem tval_zero (n : ℕ) : tval n 0 = 0 := by
  unfold tval
  split
  · rfl
  · simp

theorem linspace01_map_getD (f : ℚ → ℚ) (n i : ℕ) (h : i < n) :
    ((linspace01 n).map f).getD i 0 = f (tval n i) := by
  rw [List.getD_eq_getElem?_getD, List.getElem?_map, linspace01_getElem? n i h]
  rfl

/-! ### C5: the uncertainty band brackets the projection and widens -/

/-- **C5.** For every projection produced (from a non-empty series, horizon
`m ≥ 1`), every projected point lies inside the band,
`lower[i] ≤ projected[i] ≤ upper[i]`, and the band width `upper − lower`
(which equals `20·t[i]`) is non-decreasing in the elapsed horizon fraction,
for every choice of the sinusoid. -/
theorem projection_band_invariants (sin2pi : ℚ → ℚ) (df : DataFrame) (m : ℕ)
    (pf : ProjFrame) (_hm : 1 ≤ m)
    (hok : generate_projectionE sin2pi df m = .ok pf) :
    (∀ i, i < m → pf.lower.getD i 0 ≤ pf.projected.getD i 0 ∧
      pf.projected.getD i 0 ≤ pf.upper.getD i 0) ∧
    (∀ i j, i ≤ j → j < m →
      pf.upper.getD i 0 - pf.lower.getD i 0 ≤
        pf.upper.getD j 0 - pf.lower.getD j 0) := by
  rcases hc : df.cci.getLast? with _ | lv
  · simp [generate_projectionE, hc] at hok
  rcases hd : df.dates.getLast? with _ | ld
  · simp [generate_projectionE, hc, hd] at hok
  simp only [generate_projectionE, hc, hd, Except.ok.injEq] at hok
  subst hok
  constructor
  · intro i hi
    simp only [linspace01_map_getD _ m i hi]
    have ht := tval_nonneg m i
    constructor <;> nlinarith
  · intro i j hij hj
    have hi : i < m := lt_of_le_of_lt hij hj
    simp only [linspace01_map_getD _ m i hi, linspace01_map_getD _ m j hj]
    have ht := tval_mono m i j hij
    nlinarith

theorem projection_band_invariants_witness :
    (ProjFrame.lower ⟨[8, 9], [42, 47], [42, 57], [42, 37]⟩).getD 1 0 ≤
      (ProjFrame.projected ⟨[8, 9], [42, 47], [42, 57], [42, 37]⟩).getD 1 0 ∧
    (ProjFrame.projected ⟨[8, 9], [42, 47], [42, 57], [42, 37]⟩).getD 1 0 ≤
      (ProjFrame.upper ⟨[8, 9], [42, 47], [42, 57], [42, 37]⟩).getD 1 0 :=
  (projection_band_invariants (fun _ => 0) ⟨[7], [42], [none], [none]⟩ 2
    ⟨[8, 9], [42, 47], [42, 57], [42, 37]⟩ (by decide)
    (by norm_num [generate_projectionE, linspace01, List.range_succ])).1 1
    (by decide)

/-! ### C10: the projection starts exactly at the last actual value -/

/-- **C10.** For every non-empty input series and horizon `m ≥ 1`, the first
projected point equals the last actual value — at `t = 0` the sinusoid term
`10·sin(2π·0)` and the drift term `5·0` vanish — and the uncertainty band has
exactly zero width there: `upper[0] = lower[0] = projected[0] = last actual
value`.  `hsin` records the sine fact `sin 0 = 0` for the abstracted
sinusoid. -/
theorem projection_anchor (sin2pi : ℚ → ℚ) (df : DataFrame) (m : ℕ)
    (pf : ProjFrame) (lv : ℚ) (hm : 1 ≤ m) (hsin : sin2pi 0 = 0)
    (hok : generate_projectionE sin2pi df m = .ok pf)
    (hlast : df.cci.getLast? = some lv) :
    pf.projected.getD 0 0 = lv ∧ pf.upper.getD 0 0 = lv ∧
      pf.lower.getD 0 0 = lv := by
  rcases hd : df.dates.getLast? with _ | ld
  · simp [generate_projectionE, hlast, hd] at hok
  simp only [generate_projectionE, hlast, hd, Except.ok.injEq] at hok
  subst hok
  have h0 : 0 < m := hm
  simp only [linspace01_map_getD _ m 0 h0, tval_zero, hsin]
  norm_num

theorem projection_anchor_witness :
    (ProjFrame.projected ⟨[8], [42], [42], [42]⟩).getD 0 0 = 42 ∧
    (ProjFrame.upper ⟨[8], [42], [42], [42]⟩).getD 0 0 = 42 ∧
    (ProjFrame.lower ⟨[8], [42], [42], [42]⟩).getD 0 0 = 42 :=
  projection_anchor (fun _ => 0) ⟨[7], [42], [none], [none]⟩ 1
    ⟨[8], [42], [42], [42]⟩ 42 (by decide) rfl
    (by norm_num [generate_projectionE, linspace01, List.range_succ]) rfl
example : rollingMean [100, 102, 101, 103] 4 = [none, none, none, some (203/2)] := by
  norm_num [rollingMean, List.range_succ]
example : linspace01 3 = [0, 1/2, 1] := by
  norm_num [linspace01, List.range_succ]
example : (generate_projectionE (fun _ => 0) ⟨[7], [50], [none], [none]⟩ 2) =
    .ok ⟨[8, 9], [50, 55], [50, 65], [50, 45]⟩ := by
  norm_num [generate_projectionE, linspace01, List.range_succ]

/-! ### C6: the trailing rolling mean -/

theorem rollingMean_getElem? (xs : List ℚ) (w i : ℕ) (h : i < xs.length) :
    (rollingMean xs w)[i]? =
      some (if w ≤ i + 1 then
        some (((xs.drop (i + 1 - w)).take w).sum / (w : ℚ)) else none) := by
  unfold rollingMean
  rw [List.getElem?_map, List.getElem?_range h, Option.map_some']

theorem countP_range_window (w n : ℕ) (hw : 1 ≤ w) :
    (List.range n).countP (fun i => decide (w ≤ i + 1)) = n + 1 - w := by
  induction n with
  | zero => simp only [List.range_zero, List.countP_nil]; omega
  | succ n ih =>
    rw [List.range_succ, List.countP_append, ih]
    by_cases hc : w ≤ n + 1 <;> simp [hc] <;> omega

/-- **C6.** For every series and window `w ≥ 1`, the rolling mean (i) at each
index `i ≥ w−1` within the series is the trailing simple mean of exactly the
`w` points `series[i−w+1 .. i]` (the averaged slice has length exactly `w`),
(ii) is absent (`none`, never a fabricated zero) at each index `i < w−1`,
(iii) has exactly `len − w + 1` defined points — `0` when `w > len`, which
the truncated form `len + 1 − w` captures — and (iv) on the 12-point scenario
series, the 4-point rolling mean at index 3 equals `101.5 = 203/2`. -/
theorem rollingMean_spec (xs : List ℚ) (w : ℕ) (hw : 1 ≤ w) :
    (∀ i, i < xs.length → w ≤ i + 1 →
      (rollingMean xs w).getD i none =
        some (((xs.drop (i + 1 - w)).take w).sum / (w : ℚ)) ∧
      ((xs.drop (i + 1 - w)).take w).length = w) ∧
    (∀ i, i < xs.length → i + 1 < w → (rollingMean xs w).getD i none = none) ∧
    (rollingMean xs w).countP Option.isSome = xs.length + 1 - w ∧
    (rollingMean [100, 102, 101, 103, 105, 104, 106, 108, 107, 109, 110, 112]
        4).getD 3 none = some (203 / 2) := by
  refine ⟨?_, ?_, ?_, ?_⟩
  · intro i hi hiw
    constructor
    · rw [List.getD_eq_getElem?_getD, rollingMean_getElem? xs w i hi, if_pos hiw]
      rfl
    · rw [List.length_take, List.length_drop]
      omega
  · intro i hi hiw
    rw [List.getD_eq_getElem?_getD, rollingMean_getElem? xs w i hi,
      if_neg (by omega)]
    rfl
  · unfold rollingMean
    rw [List.countP_map]
    have he : (Option.isSome ∘ fun i =>
        if w ≤ i + 1 then
          some (((xs.drop (i + 1 - w)).take w).sum / (w : ℚ)) else none) =
        fun i => decide (w ≤ i + 1) := by
      funext i
      by_cases hc : w ≤ i + 1 <;> simp [hc]
    rw [he, countP_range_window w xs.length hw]
  · rw [List.getD_eq_getElem?_getD,
      rollingMean_getElem? _ 4 3 (by norm_num), if_pos (by norm_num)]
    norm_num

theorem rollingMean_spec_witness :
    (rollingMean [100, 102, 101, 103, 105, 104, 106, 108, 107, 109, 110, 112]
        4).getD 3 none = some (203 / 2) :=
  (rollingMean_spec [100, 102, 101, 103, 105, 104, 106, 108, 107, 109, 110, 112]
    4 (by decide)).2.2.2

/-! ### C3: the moving averages are computed before filtering, not after -/

theorem tail_ma4_getElem? (s noise : ℕ → ℚ) (n i : ℕ) :
    (((generate_sample_data s noise).tail n).ma4)[i]? =
      (rollingMean (sampleCCI s noise) 4)[(120 - n) + i]? := by
  simp [DataFrame.tail, generate_sample_data, sampleCCI_length,
    List.getElem?_drop]

/-- **C3 counterexample.**  The claim says each requested moving-average
series is computed by applying the rolling mean to the *filtered* series, so
the first `w−1` points of a filtered slice's MA are undefined.  On the code,
`generate_sample_data` attaches the MA columns to the full 120-point series
*before* `tail` is applied: with zero noise and zero sinusoid (all values
`50`), filtering to "6 Months" keeps MA values computed from pre-window
points, and the filtered `4-Month MA` column differs from the rolling mean of
the filtered slice (its head is a defined mean, not `none`). -/
theorem ma_filter_order_cex :
    filtered_dataE (generate_sample_data (fun _ => 0) (fun _ => 0)) "6 Months" =
      .ok ((generate_sample_data (fun _ => 0) (fun _ => 0)).tail 6) ∧
    ((generate_sample_data (fun _ => 0) (fun _ => 0)).tail 6).ma4 ≠
      rollingMean ((generate_sample_data (fun _ => 0) (fun _ => 0)).tail 6).cci 4 := by
  constructor
  · simp [filtered_dataE, period_months, List.lookup]
  · intro h
    have h0 : (((generate_sample_data (fun _ => 0) (fun _ => 0)).tail 6).ma4)[0]? =
        (rollingMean ((generate_sample_data (fun _ => 0) (fun _ => 0)).tail 6).cci
          4)[0]? := by rw [h]
    have hlen2 : ((generate_sample_data (fun _ => 0) (fun _ => 0)).tail 6).cci.length
        = 6 := by
      simp [DataFrame.tail, generate_sample_data, sampleCCI_length]
    rw [tail_ma4_getElem?,
      rollingMean_getElem? _ 4 ((120 - 6) + 0) (by rw [sampleCCI_length]; omega),
      rollingMean_getElem? _ 4 0 (by rw [hlen2]; omega)] at h0
    simp at h0

/-- **C3 amended.**  In the view composition, the window filter is applied to
a frame whose moving-average columns were already computed over the full
120-point series: for every recognized label the filtered frame's MA columns
are the trailing slice of the full-series rolling means (`drop (120 − n)`),
and whenever the slice starts at index `≥ w − 1 = 3` every point of the
filtered `4-Month MA` column is defined — not undefined for the first `w−1`
points as the claim states. -/
theorem ma_computed_before_filter (s noise : ℕ → ℚ) (label : String) (n : ℕ)
    (hlook : (period_months (generate_sample_data s noise)).lookup label = some n) :
    filtered_dataE (generate_sample_data s noise) label =
      .ok ((generate_sample_data s noise).tail n) ∧
    ((generate_sample_data s noise).tail n).ma4 =
      (rollingMean (sampleCCI s noise) 4).drop (120 - n) ∧
    ((generate_sample_data s noise).tail n).ma12 =
      (rollingMean (sampleCCI s noise) 12).drop (120 - n) ∧
    (3 ≤ 120 - n → ∀ i, (120 - n) + i < 120 →
      ((((generate_sample_data s noise).tail n).ma4).getD i none).isSome = true) := by
  refine ⟨by simp [filtered_dataE, hlook], ?_, ?_, ?_⟩
  · simp [DataFrame.tail, generate_sample_data, sampleCCI_length]
  · simp [DataFrame.tail, generate_sample_data, sampleCCI_length]
  · intro h3 i hi
    rw [List.getD_eq_getElem?_getD, tail_ma4_getElem?,
      rollingMean_getElem? _ 4 ((120 - n) + i) (by rw [sampleCCI_length]; omega),
      if_pos (by omega)]
    rfl

theorem ma_computed_before_filter_witness :
    ((((generate_sample_data (fun _ => 0) (fun _ => 0)).tail 12).ma4).getD 0
      none).isSome = true :=
  (ma_computed_before_filter (fun _ => 0) (fun _ => 0) "1 Year" 12
    (by decide)).2.2.2 (by decide) 0 (by decide)
